import Mathlib

/-!
Verification of the terraform-provider-sevalla repository against its
natural-language specification.

The development shallowly embeds the claim-relevant parts of the source:

* `internal/sevallaapi/client.go` — the Transport layer (`handleError`,
  `Get`/`Post`/`Put`/`Delete`);
* `internal/sevallaapi/services.go` — `DatabaseService.Create`'s bounded
  consistency-retry;
* `internal/sevallaapi` model types — the `Update*Request` structs and the
  JSON `omitempty` pointer-field serialization of `encoding/json`;
* `internal/provider/site_data_source.go` — `SiteResource.waitForOperation`,
  the long-running-operation poller;
* the provider's `Configure` method — credential resolution and client
  construction.

External effects (HTTP exchanges, JSON decoding of response bodies, the
caller's cancellation context, wall-clock time) are modelled as explicit
inputs: each poll's outcome is a function from poll index to a result, the
cancellation signal is an optional firing time in seconds, and the ticker /
deadline timings of the Go `select` loop are tracked as explicit event times
(ticker fires at 5, 10, 15, … seconds; the deadline at 600 seconds).  Ties in
the `select` (which Go resolves by uniform choice) are resolved with a fixed
priority — cancellation, then deadline, then tick — which is one admissible
refinement of the racy Go semantics and the only schedule the claims need.
-/

namespace Sevalla

/-! ## Transport — internal/sevallaapi/client.go -/

/-- The `{error, message}` error-body shape that `Client.handleError` tries to
decode (client.go, the anonymous struct in `handleError`). -/
structure ErrorResponse where
  error : String
  message : String
deriving Repr, DecidableEq

/-- An HTTP response as the Transport sees it.  `decodedError` is the outcome
of `json.Unmarshal(body, &errorResponse)` — the JSON decoder is Go's external
`encoding/json`, modelled as an oracle supplied with the response: `none`
means the body does not parse as the `{error, message}` shape, `some er`
means it parses to `er` (absent JSON fields decode to `""`). -/
structure HTTPResponse where
  statusCode : Nat
  body : String
  decodedError : Option ErrorResponse
deriving Repr, DecidableEq

/-- Embedding of `Client.handleError` (client.go lines 168-191).  The
`io.ReadAll` of the body is modelled as succeeding (its failure branch only
reformats the status code).  Returns the text of the error built by
`fmt.Errorf("HTTP %d: %s", …)`. -/
def handleError (resp : HTTPResponse) : String :=
  match resp.decodedError with
  | none => "HTTP " ++ toString resp.statusCode ++ ": " ++ resp.body.trim
  | some er =>
    if er.message ≠ "" then
      "HTTP " ++ toString resp.statusCode ++ ": " ++ er.message
    else if er.error ≠ "" then
      "HTTP " ++ toString resp.statusCode ++ ": " ++ er.error
    else
      "HTTP " ++ toString resp.statusCode ++ ": " ++ resp.body.trim

/-- Embedding of `Client.Get` (client.go lines 100-113), starting from the
single response produced by `makeRequest`.  `decodeResult` is the oracle for
`json.NewDecoder(resp.Body).Decode(result)` on a success body; it is only
consulted below the 400 threshold. -/
def clientGet {α : Type} (resp : HTTPResponse) (decodeResult : Except String α) :
    Except String α :=
  if 400 ≤ resp.statusCode then Except.error (handleError resp) else decodeResult

/-- Embedding of `Client.Post` (client.go).  `decodeResult = none` models a
`nil` result argument (no body expected); the call then succeeds with no
decoded value. -/
def clientPost {α : Type} (resp : HTTPResponse)
    (decodeResult : Option (Except String α)) : Except String (Option α) :=
  if 400 ≤ resp.statusCode then Except.error (handleError resp)
  else
    match decodeResult with
    | some d => d.map some
    | none => Except.ok none

/-- Embedding of `Client.Put` (client.go); identical control flow to `Post`. -/
def clientPut {α : Type} (resp : HTTPResponse)
    (decodeResult : Option (Except String α)) : Except String (Option α) :=
  if 400 ≤ resp.statusCode then Except.error (handleError resp)
  else
    match decodeResult with
    | some d => d.map some
    | none => Except.ok none

/-- Embedding of `Client.Delete` (client.go); never decodes a body. -/
def clientDelete (resp : HTTPResponse) : Except String Unit :=
  if 400 ≤ resp.statusCode then Except.error (handleError resp) else Except.ok ()

/-- Containment: `containsStr s pat` holds when `pat` occurs contiguously inside `s`. -/
def containsStr (s pat : String) : Prop :=
  List.IsInfix pat.data s.data

theorem containsStr_mid (a pat b : String) : containsStr (a ++ pat ++ b) pat := by
  unfold containsStr
  exact ⟨a.data, b.data, by simp⟩

theorem containsStr_suffix (a pat : String) : containsStr (a ++ pat) pat := by
  unfold containsStr
  exact ⟨a.data, [], by simp⟩

/-- Every error produced by `handleError` begins with `"HTTP <status>: "`. -/
theorem handleError_shape (resp : HTTPResponse) :
    ∃ tail, handleError resp = "HTTP " ++ toString resp.statusCode ++ ": " ++ tail := by
  unfold handleError
  cases resp.decodedError with
  | none => exact ⟨_, rfl⟩
  | some er =>
    by_cases hm : er.message = ""
    · by_cases he : er.error = ""
      · exact ⟨resp.body.trim, by simp [hm, he]⟩
      · exact ⟨er.error, by simp [hm, he]⟩
    · exact ⟨er.message, by simp [hm]⟩

/-- C5: for every Transport call (Get, Post, Put, Delete), an HTTP response
with status ≥ 400 yields an error carrying the status code, whose text
contains the decoded `message` field if non-empty, else the decoded `error`
field if non-empty, else the raw trimmed body; no success result is decoded
(the decode oracles are arbitrary and unused), and the single given response
is the only exchange consumed — no retry happens within the call. -/
theorem transport_error_responses {α β γ : Type} (resp : HTTPResponse)
    (h : 400 ≤ resp.statusCode)
    (dg : Except String α) (dp : Option (Except String β))
    (dq : Option (Except String γ)) :
    clientGet resp dg = Except.error (handleError resp) ∧
    clientPost resp dp = Except.error (handleError resp) ∧
    clientPut resp dq = Except.error (handleError resp) ∧
    clientDelete resp = Except.error (handleError resp) ∧
    containsStr (handleError resp) (toString resp.statusCode) ∧
    (∀ er, resp.decodedError = some er → er.message ≠ "" →
      handleError resp = "HTTP " ++ toString resp.statusCode ++ ": " ++ er.message ∧
      containsStr (handleError resp) er.message) ∧
    (∀ er, resp.decodedError = some er → er.message = "" → er.error ≠ "" →
      handleError resp = "HTTP " ++ toString resp.statusCode ++ ": " ++ er.error ∧
      containsStr (handleError resp) er.error) ∧
    (∀ er, resp.decodedError = some er → er.message = "" → er.error = "" →
      handleError resp = "HTTP " ++ toString resp.statusCode ++ ": " ++ resp.body.trim ∧
      containsStr (handleError resp) resp.body.trim) ∧
    (resp.decodedError = none →
      handleError resp = "HTTP " ++ toString resp.statusCode ++ ": " ++ resp.body.trim ∧
      containsStr (handleError resp) resp.body.trim) := by
  refine ⟨?_, ?_, ?_, ?_, ?_, ?_, ?_, ?_, ?_⟩
  · simp [clientGet, h]
  · simp [clientPost, h]
  · simp [clientPut, h]
  · simp [clientDelete, h]
  · obtain ⟨tail, ht⟩ := handleError_shape resp
    rw [ht, String.append_assoc]
    exact containsStr_mid _ _ _
  · intro er he hm
    have hv : handleError resp =
        "HTTP " ++ toString resp.statusCode ++ ": " ++ er.message := by
      simp [handleError, he, hm]
    exact ⟨hv, hv ▸ containsStr_suffix _ _⟩
  · intro er he hm hne
    have hv : handleError resp =
        "HTTP " ++ toString resp.statusCode ++ ": " ++ er.error := by
      simp [handleError, he, hm, hne]
    exact ⟨hv, hv ▸ containsStr_suffix _ _⟩
  · intro er he hm hne
    have hv : handleError resp =
        "HTTP " ++ toString resp.statusCode ++ ": " ++ resp.body.trim := by
      simp [handleError, he, hm, hne]
    exact ⟨hv, hv ▸ containsStr_suffix _ _⟩
  · intro he
    have hv : handleError resp =
        "HTTP " ++ toString resp.statusCode ++ ": " ++ resp.body.trim := by
      simp [handleError, he]
    exact ⟨hv, hv ▸ containsStr_suffix _ _⟩

/-- Witness for C5 at a concrete 404 response whose body decodes to
`{error: "boom", message: "nf"}`: the Get call surfaces `"HTTP 404: nf"`. -/
theorem transport_error_responses_witness :
    400 ≤ (404 : Nat) ∧
    clientGet (HTTPResponse.mk 404 "ignored" (some ⟨"boom", "nf"⟩))
      (Except.ok (0 : Nat)) = Except.error "HTTP 404: nf" := by
  refine ⟨by decide, ?_⟩
  have h := (transport_error_responses (α := Nat) (β := Nat) (γ := Nat)
    (HTTPResponse.mk 404 "ignored" (some ⟨"boom", "nf"⟩)) (by decide)
    (Except.ok 0) none none).1
  have hv : handleError (HTTPResponse.mk 404 "ignored" (some ⟨"boom", "nf"⟩)) =
      "HTTP 404: nf" := by decide
  rw [h, hv]

/-! ## Operation Poller — internal/provider/site_data_source.go -/

/-- A decoded Go `interface{}` value, as produced by `encoding/json` for the
operation's free-form `data` payload.  `obj` models
`map[string]interface{}` as an association list with distinct keys. -/
inductive GoValue where
  | str (s : String)
  | num (n : Int)
  | boolean (b : Bool)
  | obj (fields : List (String × GoValue))
  | arr (elems : List GoValue)
  | null

/-- Association-list lookup, mirroring a Go map index `dataMap[key]`. -/
def lookupField : List (String × GoValue) → String → Option GoValue
  | [], _ => none
  | (k, v) :: rest, key => if k = key then some v else lookupField rest key

/-- The `Operation` model struct (sevallaapi types, `type Operation struct`).
Source field `Type` is rendered `opType`; `Data interface{}` is
`Option GoValue` (`none` = Go `nil`). -/
structure Operation where
  id : String
  status : String
  opType : String
  resourceID : String
  progress : Int
  message : String
  createdAt : Int
  completedAt : Option Int
  error : Option String
  data : Option GoValue

/-- The nested extraction `op.Data.(map[string]interface{})["site_id"].(string)`
performed in `waitForOperation`'s `completed` branch: yields the string under
the `site_id` key when `Data` is a JSON object holding a string there. -/
def siteIdFromData : Option GoValue → Option String
  | some (GoValue.obj fields) =>
    match lookupField fields "site_id" with
    | some (GoValue.str s) => some s
    | _ => none
  | _ => none

/-- The `switch op.Status` body of `waitForOperation`
(site_data_source.go lines 407-427): `some v` means the loop returns with
`v`; `none` means a non-terminal status, and the loop keeps waiting. -/
def classifyOp (op : Operation) : Option (Except String String) :=
  if op.status = "completed" then
    some
      (if op.resourceID ≠ "" then Except.ok op.resourceID
       else
         match siteIdFromData op.data with
         | some s => Except.ok s
         | none => Except.error "operation completed but site ID not found")
  else if op.status = "failed" then
    some
      (Except.error
        (match op.error with
         | some e => "operation failed: " ++ e
         | none => "operation failed with unknown error"))
  else none

/-- Outcome of a `waitForOperation` run: the returned value (`ok id` or the
error text), the elapsed time in seconds at return, and how many
`Operations.GetStatus` calls were issued.  Since the loop returns, the poll
count is final — no further polls happen after the return. -/
structure PollResult where
  value : Except String String
  returnTime : Nat
  pollCount : Nat
deriving Repr

/-- Whether the caller's cancellation context (`ctx.Done()`) has fired by
time `t`.  `cancelAt = some c` means cancellation fires `c` seconds after the
poller starts; `none` means it never fires. -/
def cancelFires (cancelAt : Option Nat) (t : Nat) : Bool :=
  match cancelAt with
  | some c => c ≤ t
  | none => false

/-- One full execution of the `for { select { … } }` loop of
`SiteResource.waitForOperation` (site_data_source.go lines 394-433), from the
state where `n` ticks have already been consumed.  `polls k` is the outcome
of the `(k+1)`-th `Operations.GetStatus` call — an external HTTP exchange,
supplied as an oracle.  The ticker (`time.NewTicker(5 * time.Second)`) fires
at 5(n+1) seconds, the deadline (`time.After(10 * time.Minute)`) at 600
seconds; `select` ties are resolved cancellation-first, then deadline, then
tick (an admissible refinement of Go's random choice).  `fuel` bounds the
recursion; from the top-level entry `fuel = 120`, `n = 0`, the deadline
branch always exits before fuel runs out, and the fuel-exhausted row repeats
the deadline exit. -/
def waitLoop (polls : Nat → Except String Operation) (cancelAt : Option Nat) :
    Nat → Nat → PollResult
  | 0, n => ⟨Except.error "operation timed out after 10 minutes", 600, n⟩
  | fuel + 1, n =>
    if cancelFires cancelAt (min (5 * (n + 1)) 600) then
      ⟨Except.error "context canceled", cancelAt.getD 0, n⟩
    else if 600 ≤ 5 * (n + 1) then
      ⟨Except.error "operation timed out after 10 minutes", 600, n⟩
    else
      match polls n with
      | Except.error e =>
        ⟨Except.error ("failed to get operation status: " ++ e), 5 * (n + 1), n + 1⟩
      | Except.ok op =>
        match classifyOp op with
        | some v => ⟨v, 5 * (n + 1), n + 1⟩
        | none => waitLoop polls cancelAt fuel (n + 1)

/-- Entry point of `SiteResource.waitForOperation`: no tick consumed
yet, enough fuel for the full 10-minute window of 5-second ticks. -/
def waitForOperation (polls : Nat → Except String Operation)
    (cancelAt : Option Nat) : PollResult :=
  waitLoop polls cancelAt 120 0

/-- A status that is neither terminal state. -/
def nonterminal (op : Operation) : Prop :=
  op.status ≠ "completed" ∧ op.status ≠ "failed"

theorem classifyOp_eq_none {op : Operation} (h : nonterminal op) :
    classifyOp op = none := by
  obtain ⟨h1, h2⟩ := h
  simp [classifyOp, h1, h2]

theorem cancelFires_none (t : Nat) : cancelFires none t = false := rfl

/-- One-step unfolding of the loop body, usable when the fuel is a literal. -/
theorem waitLoop_succ (polls : Nat → Except String Operation)
    (cancelAt : Option Nat) (fuel n : Nat) :
    waitLoop polls cancelAt (fuel + 1) n =
      if cancelFires cancelAt (min (5 * (n + 1)) 600) then
        ⟨Except.error "context canceled", cancelAt.getD 0, n⟩
      else if 600 ≤ 5 * (n + 1) then
        ⟨Except.error "operation timed out after 10 minutes", 600, n⟩
      else
        match polls n with
        | Except.error e =>
          ⟨Except.error ("failed to get operation status: " ++ e),
            5 * (n + 1), n + 1⟩
        | Except.ok op =>
          match classifyOp op with
          | some v => ⟨v, 5 * (n + 1), n + 1⟩
          | none => waitLoop polls cancelAt fuel (n + 1) := rfl

/-- While every poll comes back successful and non-terminal, the loop just
advances from tick `n` to tick `m`. -/
theorem waitLoop_reach (polls : Nat → Except String Operation) :
    ∀ fuel n m, n + fuel = 120 → n ≤ m → m ≤ 119 →
      (∀ k, n ≤ k → k < m → ∃ p, polls k = Except.ok p ∧ nonterminal p) →
      waitLoop polls none fuel n = waitLoop polls none (120 - m) m := by
  intro fuel
  induction fuel with
  | zero => intro n m hfn hnm hm _; omega
  | succ fuel ih =>
    intro n m hfn hnm hm hpre
    rcases Nat.eq_or_lt_of_le hnm with heq | hlt
    · subst heq
      congr 1
      omega
    · obtain ⟨p, hp, hnt⟩ := hpre n le_rfl hlt
      have hn118 : ¬ (600 ≤ 5 * (n + 1)) := by omega
      have step : waitLoop polls none (fuel + 1) n = waitLoop polls none fuel (n + 1) := by
        simp only [waitLoop, cancelFires_none, Bool.false_eq_true, if_false, hn118,
          hp, classifyOp_eq_none hnt]
      rw [step]
      exact ih (n + 1) m (by omega) hlt hm (fun k hk1 hk2 => hpre k (by omega) hk2)

/-- If the first `n` polls are successful and non-terminal and poll `n`
classifies terminally, the poller exits at tick `n + 1` with that outcome,
having issued exactly `n + 1` polls. -/
theorem waitForOperation_exit_at (polls : Nat → Except String Operation)
    (n : Nat) (hn : n ≤ 118)
    (hpre : ∀ k, k < n → ∃ p, polls k = Except.ok p ∧ nonterminal p)
    (op : Operation) (v : Except String String)
    (hop : polls n = Except.ok op) (hv : classifyOp op = some v) :
    waitForOperation polls none = ⟨v, 5 * (n + 1), n + 1⟩ := by
  unfold waitForOperation
  rw [waitLoop_reach polls 120 0 n (by omega) (by omega) (by omega)
    (fun k _ hk => hpre k hk)]
  rw [show 120 - n = (119 - n) + 1 by omega]
  have hn118' : ¬ (600 ≤ 5 * (n + 1)) := by omega
  simp only [waitLoop, cancelFires_none, Bool.false_eq_true, if_false, hn118', hop, hv]

/-- If the first `n` polls are successful and non-terminal and poll `n`
itself errors, the poller exits at tick `n + 1` with the wrapped error. -/
theorem waitForOperation_pollError_at (polls : Nat → Except String Operation)
    (n : Nat) (hn : n ≤ 118)
    (hpre : ∀ k, k < n → ∃ p, polls k = Except.ok p ∧ nonterminal p)
    (e : String) (hop : polls n = Except.error e) :
    waitForOperation polls none =
      ⟨Except.error ("failed to get operation status: " ++ e), 5 * (n + 1), n + 1⟩ := by
  unfold waitForOperation
  rw [waitLoop_reach polls 120 0 n (by omega) (by omega) (by omega)
    (fun k _ hk => hpre k hk)]
  rw [show 120 - n = (119 - n) + 1 by omega]
  have hn118' : ¬ (600 ≤ 5 * (n + 1)) := by omega
  simp only [waitLoop, cancelFires_none, Bool.false_eq_true, if_false, hn118', hop]

/-- If every poll up to the deadline is successful and non-terminal, the
loop exits at 600 seconds with the timeout error after 119 polls. -/
theorem waitLoop_timeout (polls : Nat → Except String Operation) :
    ∀ fuel n, n + fuel = 120 → n ≤ 119 →
      (∀ k, n ≤ k → k ≤ 118 → ∃ p, polls k = Except.ok p ∧ nonterminal p) →
      waitLoop polls none fuel n =
        ⟨Except.error "operation timed out after 10 minutes", 600, 119⟩ := by
  intro fuel
  induction fuel with
  | zero => intro n hfn hn _; omega
  | succ fuel ih =>
    intro n hfn hn hpre
    rcases Nat.eq_or_lt_of_le hn with heq | hlt
    · subst heq
      simp only [waitLoop, cancelFires_none, Bool.false_eq_true, if_false]
      norm_num
    · have hn118 : n ≤ 118 := by omega
      obtain ⟨p, hp, hnt⟩ := hpre n le_rfl hn118
      have hlt600 : ¬ (600 ≤ 5 * (n + 1)) := by omega
      have step : waitLoop polls none (fuel + 1) n = waitLoop polls none fuel (n + 1) := by
        simp only [waitLoop, cancelFires_none, Bool.false_eq_true, if_false, hlt600,
          hp, classifyOp_eq_none hnt]
      rw [step]
      exact ih (n + 1) (by omega) (by omega) (fun k hk1 hk2 => hpre k (by omega) hk2)

/-- If cancellation fires at `c ≤ 600` and every poll scheduled strictly
before `c` is successful and non-terminal, the loop exits with the
cancellation error at time `c`, having issued exactly the polls whose tick
came before `c`. -/
theorem waitLoop_cancel (polls : Nat → Except String Operation) (c : Nat)
    (hc : c ≤ 600) :
    ∀ fuel n, n + fuel = 120 → n ≤ 119 →
      (∀ k, n ≤ k → 5 * (k + 1) < c → ∃ p, polls k = Except.ok p ∧ nonterminal p) →
      waitLoop polls (some c) fuel n =
        ⟨Except.error "context canceled", c, max n ((c - 1) / 5)⟩ := by
  intro fuel
  induction fuel with
  | zero => intro n hfn hn _; omega
  | succ fuel ih =>
    intro n hfn hn hpre
    by_cases hcf : c ≤ min (5 * (n + 1)) 600
    · have hcf' : cancelFires (some c) (min (5 * (n + 1)) 600) = true := by
        simp [cancelFires, hcf]
      have hmax : max n ((c - 1) / 5) = n := by
        have : (c - 1) / 5 ≤ n := by omega
        omega
      simp only [waitLoop, hcf', if_true, Option.getD_some, hmax]
    · have hcf' : cancelFires (some c) (min (5 * (n + 1)) 600) = false := by
        simp [cancelFires]
        omega
      have htick : 5 * (n + 1) < c := by omega
      have hlt600 : ¬ (600 ≤ 5 * (n + 1)) := by omega
      obtain ⟨p, hp, hnt⟩ := hpre n le_rfl htick
      have step : waitLoop polls (some c) (fuel + 1) n =
          waitLoop polls (some c) fuel (n + 1) := by
        simp only [waitLoop, hcf', Bool.false_eq_true, if_false, hlt600, hp,
          classifyOp_eq_none hnt]
      rw [step, ih (n + 1) (by omega) (by omega)
        (fun k hk1 hk2 => hpre k (by omega) hk2)]
      have h1 : max (n + 1) ((c - 1) / 5) = (c - 1) / 5 := by omega
      have h2 : max n ((c - 1) / 5) = (c - 1) / 5 := by omega
      rw [h1, h2]

/-- Once at least one tick has been consumed and cancellation has not yet
fired, every exit of the loop happens at time ≥ 5 seconds. -/
theorem waitLoop_returnTime_ge (polls : Nat → Except String Operation)
    (cancelAt : Option Nat) :
    ∀ fuel n, 1 ≤ n → cancelFires cancelAt (min (5 * n) 600) = false →
      5 ≤ (waitLoop polls cancelAt fuel n).returnTime := by
  intro fuel
  induction fuel with
  | zero => intro n _ _; simp [waitLoop]
  | succ fuel ih =>
    intro n hn hprev
    by_cases hcf : cancelFires cancelAt (min (5 * (n + 1)) 600) = true
    · obtain ⟨c, hca⟩ : ∃ c, cancelAt = some c := by
        cases hca : cancelAt with
        | none => rw [hca] at hcf; simp [cancelFires] at hcf
        | some c => exact ⟨c, rfl⟩
      subst hca
      have hle : c ≤ min (5 * (n + 1)) 600 := by
        simpa [cancelFires] using hcf
      have hgt : ¬ (c ≤ min (5 * n) 600) := by
        simpa [cancelFires] using hprev
      simp only [waitLoop, hcf, if_true, Option.getD_some]
      omega
    · have hcf' : cancelFires cancelAt (min (5 * (n + 1)) 600) = false := by
        simpa using hcf
      by_cases h600 : 600 ≤ 5 * (n + 1)
      · simp only [waitLoop, hcf', Bool.false_eq_true, if_false, h600, if_true]
        omega
      · cases hp : polls n with
        | error e =>
          simp only [waitLoop, hcf', Bool.false_eq_true, if_false, h600, hp]
          omega
        | ok op =>
          cases hco : classifyOp op with
          | some v =>
            simp only [waitLoop, hcf', Bool.false_eq_true, if_false, h600, hp, hco]
            omega
          | none =>
            have step : waitLoop polls cancelAt (fuel + 1) n =
                waitLoop polls cancelAt fuel (n + 1) := by
              simp only [waitLoop, hcf', Bool.false_eq_true, if_false, h600, hp, hco]
            rw [step]
            exact ih (n + 1) (by omega) hcf'

/-! Concrete operations used by counterexamples and witnesses. -/

def opPending : Operation :=
  ⟨"op_9", "pending", "create_site", "", 0, "", 0, none, none, none⟩

def opRunning : Operation :=
  ⟨"op_9", "running", "create_site", "", 50, "", 0, none, none, none⟩

def opCompletedSite42 : Operation :=
  ⟨"op_9", "completed", "create_site", "site_42", 100, "", 0, none, none, none⟩

def opCompletedNoID : Operation :=
  ⟨"op_9", "completed", "create_site", "", 100, "", 0, none, none, none⟩

def opFailedQuota : Operation :=
  ⟨"op_9", "failed", "create_site", "", 100, "", 0, none, some "quota exceeded", none⟩

def opFailedSilent : Operation :=
  ⟨"op_9", "failed", "create_site", "", 100, "", 0, none, none, none⟩

/-- Status sequence PENDING, RUNNING, then COMPLETED with resource id
`site_42` — the spec's own poller scenario. -/
def sitePollSeq : Nat → Except String Operation := fun n =>
  if n = 0 then Except.ok opPending
  else if n = 1 then Except.ok opRunning
  else Except.ok opCompletedSite42

/-- C1 counterexample: on an operation that completes with an empty
resource-id field and no `site_id` in its data payload, the poller's fatal
error reads "operation completed but site ID not found" — not the
"operation completed but resource id not found" text the claim states. -/
theorem poller_completed_message_cex :
    waitForOperation (fun _ => Except.ok opCompletedNoID) none =
      ⟨Except.error "operation completed but site ID not found", 5, 1⟩ ∧
    "operation completed but site ID not found" ≠
      "operation completed but resource id not found" :=
  ⟨rfl, by decide⟩

/-- C1 (amended): for every poll in which the poller observes the terminal
`completed` status, it stops polling and returns the operation's explicit
resource-id field when non-empty; otherwise the string stored under the
`site_id` key of the free-form data payload when that key holds a string;
and when neither source yields an identifier, the fatal error
"operation completed but site ID not found" with no identifier. -/
theorem poller_completed_exit (polls : Nat → Except String Operation)
    (n : Nat) (op : Operation) (hn : n ≤ 118)
    (hpre : ∀ k, k < n → ∃ p, polls k = Except.ok p ∧ nonterminal p)
    (hop : polls n = Except.ok op) (hst : op.status = "completed") :
    (op.resourceID ≠ "" →
      waitForOperation polls none =
        ⟨Except.ok op.resourceID, 5 * (n + 1), n + 1⟩) ∧
    (∀ s, op.resourceID = "" → siteIdFromData op.data = some s →
      waitForOperation polls none = ⟨Except.ok s, 5 * (n + 1), n + 1⟩) ∧
    (op.resourceID = "" → siteIdFromData op.data = none →
      waitForOperation polls none =
        ⟨Except.error "operation completed but site ID not found",
          5 * (n + 1), n + 1⟩) := by
  refine ⟨?_, ?_, ?_⟩
  · intro h
    exact waitForOperation_exit_at polls n hn hpre op _ hop
      (by simp [classifyOp, hst, h])
  · intro s h hs
    exact waitForOperation_exit_at polls n hn hpre op _ hop
      (by simp [classifyOp, hst, h, hs])
  · intro h hs
    exact waitForOperation_exit_at polls n hn hpre op _ hop
      (by simp [classifyOp, hst, h, hs])

/-- Witness for the amended C1: on PENDING, RUNNING, COMPLETED with resource
id `site_42`, the poller returns that id, no error, after 3 polls. -/
theorem poller_completed_exit_witness :
    waitForOperation sitePollSeq none = ⟨Except.ok "site_42", 15, 3⟩ := by
  have h := (poller_completed_exit sitePollSeq 2 opCompletedSite42 (by omega)
    (fun k hk => by
      interval_cases k
      · exact ⟨opPending, rfl, by decide, by decide⟩
      · exact ⟨opRunning, rfl, by decide, by decide⟩)
    rfl rfl).1 (by decide)
  exact h

/-- C2: for every poll in which the poller observes the terminal `failed`
status, it returns an error and no identifier: when the operation's Error
field is non-nil the returned error contains the attached string, otherwise
it is the generic message containing "failed with unknown error". -/
theorem poller_failed_exit (polls : Nat → Except String Operation)
    (n : Nat) (op : Operation) (hn : n ≤ 118)
    (hpre : ∀ k, k < n → ∃ p, polls k = Except.ok p ∧ nonterminal p)
    (hop : polls n = Except.ok op) (hst : op.status = "failed") :
    (∀ e, op.error = some e →
      waitForOperation polls none =
        ⟨Except.error ("operation failed: " ++ e), 5 * (n + 1), n + 1⟩ ∧
      containsStr ("operation failed: " ++ e) e) ∧
    (op.error = none →
      waitForOperation polls none =
        ⟨Except.error "operation failed with unknown error", 5 * (n + 1), n + 1⟩ ∧
      containsStr "operation failed with unknown error"
        "failed with unknown error") := by
  constructor
  · intro e he
    refine ⟨waitForOperation_exit_at polls n hn hpre op _ hop
      (by simp [classifyOp, hst, he]), ?_⟩
    exact containsStr_suffix "operation failed: " e
  · intro he
    refine ⟨waitForOperation_exit_at polls n hn hpre op _ hop
      (by simp [classifyOp, hst, he]), ?_⟩
    have heq : "operation " ++ "failed with unknown error" =
        "operation failed with unknown error" := by decide
    exact heq ▸ containsStr_suffix "operation " "failed with unknown error"

/-- Witness for C2: a first poll already FAILED with attached error
"quota exceeded" yields an error containing "quota exceeded". -/
theorem poller_failed_exit_witness :
    waitForOperation (fun _ => Except.ok opFailedQuota) none =
      ⟨Except.error "operation failed: quota exceeded", 5, 1⟩ ∧
    containsStr "operation failed: quota exceeded" "quota exceeded" := by
  have h := (poller_failed_exit (fun _ => Except.ok opFailedQuota) 0
    opFailedQuota (by omega) (fun k hk => absurd hk (by omega)) rfl rfl).1
    "quota exceeded" rfl
  exact h

/-- C3: if every poll before the 10-minute deadline comes back successful
and non-terminal, the poller returns the fatal timeout error at 600 seconds
and no identifier, with exactly 119 polls issued — none after returning. -/
theorem poller_timeout_exit (polls : Nat → Except String Operation)
    (hpre : ∀ k, k ≤ 118 → ∃ p, polls k = Except.ok p ∧ nonterminal p) :
    waitForOperation polls none =
      ⟨Except.error "operation timed out after 10 minutes", 600, 119⟩ :=
  waitLoop_timeout polls 120 0 (by omega) (by omega) (fun k _ hk => hpre k hk)

/-- Witness for C3: a status that stays `pending` forever times out. -/
theorem poller_timeout_exit_witness :
    waitForOperation (fun _ => Except.ok opPending) none =
      ⟨Except.error "operation timed out after 10 minutes", 600, 119⟩ :=
  poller_timeout_exit (fun _ => Except.ok opPending)
    (fun _ _ => ⟨opPending, rfl, by decide, by decide⟩)

/-- C4: if the caller's cancellation fires at time `c` (within the deadline)
while the poller is waiting, the poller returns at time `c` itself — within
one 5-second poll interval of the firing — with the cancellation as the
returned error, having issued only the `(c-1)/5` polls whose tick came
strictly before `c`: no further polls and no retry. -/
theorem poller_cancel_exit (polls : Nat → Except String Operation) (c : Nat)
    (hc : c ≤ 600)
    (hpre : ∀ k, 5 * (k + 1) < c → ∃ p, polls k = Except.ok p ∧ nonterminal p) :
    waitForOperation polls (some c) =
      ⟨Except.error "context canceled", c, (c - 1) / 5⟩ := by
  unfold waitForOperation
  rw [waitLoop_cancel polls c hc 120 0 (by omega) (by omega)
    (fun k _ hk => hpre k hk)]
  rw [Nat.zero_max]

/-- Witness for C4: cancellation at 7 seconds, mid-wait between the first
and second tick, returns the cancellation after exactly one poll. -/
theorem poller_cancel_exit_witness :
    waitForOperation (fun _ => Except.ok opPending) (some 7) =
      ⟨Except.error "context canceled", 7, 1⟩ := by
  have h := poller_cancel_exit (fun _ => Except.ok opPending) 7 (by omega)
    (fun k _ => ⟨opPending, rfl, by decide, by decide⟩)
  exact h

/-- C9: if a `GetStatus` poll itself returns an error, the poller
immediately returns that error wrapped with "failed to get operation
status", no identifier, and issues no retry and no further polls. -/
theorem poller_getstatus_error_exit (polls : Nat → Except String Operation)
    (n : Nat) (e : String) (hn : n ≤ 118)
    (hpre : ∀ k, k < n → ∃ p, polls k = Except.ok p ∧ nonterminal p)
    (hop : polls n = Except.error e) :
    waitForOperation polls none =
      ⟨Except.error ("failed to get operation status: " ++ e),
        5 * (n + 1), n + 1⟩ :=
  waitForOperation_pollError_at polls n hn hpre e hop

/-- Witness for C9: a transport failure on the very first poll is terminal
for the whole wait. -/
theorem poller_getstatus_error_exit_witness :
    waitForOperation (fun _ => Except.error "connection refused") none =
      ⟨Except.error "failed to get operation status: connection refused",
        5, 1⟩ := by
  have h := poller_getstatus_error_exit (fun _ => Except.error "connection refused")
    0 "connection refused" (by omega) (fun k hk => absurd hk (by omega)) rfl
  exact h

/-- C10: the poller never issues its first `GetStatus` poll before one full
5-second ticker interval has elapsed: every run either returns at 5 seconds
or later, or exits on a cancellation that fired before the first tick —
having issued zero polls. -/
theorem poller_first_poll_not_early (polls : Nat → Except String Operation)
    (cancelAt : Option Nat) :
    5 ≤ (waitForOperation polls cancelAt).returnTime ∨
    ((waitForOperation polls cancelAt).value = Except.error "context canceled" ∧
     (waitForOperation polls cancelAt).pollCount = 0) := by
  unfold waitForOperation
  rw [show (120 : Nat) = 119 + 1 from rfl, waitLoop_succ]
  by_cases hcf : cancelFires cancelAt (min (5 * (0 + 1)) 600) = true
  · right
    rw [if_pos hcf]
    exact ⟨rfl, rfl⟩
  · left
    have h600 : ¬ (600 ≤ 5 * (0 + 1)) := by omega
    rw [if_neg hcf, if_neg h600]
    cases hp : polls 0 with
    | error e =>
      dsimp only
      omega
    | ok op =>
      dsimp only
      cases hco : classifyOp op with
      | some v =>
        dsimp only
        omega
      | none =>
        dsimp only
        exact waitLoop_returnTime_ge polls cancelAt 119 1 (by omega)
          (by simpa using hcf)

/-! ## DatabaseService.Create — internal/sevallaapi/services.go -/

/-- The `Database` model record.  Of the source struct's many fields only a
representative few are carried; the consistency-retry logic under
verification never inspects any field, so the record is otherwise opaque
(as the spec itself treats managed resources). -/
structure Database where
  id : String
  displayName : String
  status : String
deriving Repr, DecidableEq

/-- Outcome of `DatabaseService.Create` together with its retry trace:
how many `Get` attempts ran and how many one-second sleeps were taken. -/
structure DatabaseCreateOutcome where
  result : Except String Database
  getAttempts : Nat
  sleepSeconds : Nat
deriving Repr

/-- The `for i := 0; i < 3; i++` retry loop of `DatabaseService.Create`
(services.go lines 92-103): `time.Sleep(time.Second)` runs before every
attempt with `i > 0`; the loop breaks on the first nil-error `Get` and
otherwise keeps the last error.  `gets i` is the outcome of the `(i+1)`-th
`Get` on the freshly created id — an external HTTP exchange, supplied as an
oracle.  `i` is the next attempt index, `remaining` the attempts left,
`lastErr` the error of the previous attempt. -/
def databaseGetLoop (gets : Nat → Except String Database) :
    Nat → Nat → String → DatabaseCreateOutcome
  | i, 0, lastErr => ⟨Except.error lastErr, i, i - 1⟩
  | i, remaining + 1, _ =>
    match gets i with
    | Except.ok d => ⟨Except.ok d, i + 1, i⟩
    | Except.error e => databaseGetLoop gets (i + 1) remaining e

/-- Embedding of `DatabaseService.Create` (services.go lines 80-106): on POST failure the
error is returned; on POST success (yielding the created id) the record is
re-fetched with up to 3 attempts. -/
def databaseServiceCreate (postResult : Except String String)
    (gets : Nat → Except String Database) : DatabaseCreateOutcome :=
  match postResult with
  | Except.error e => ⟨Except.error e, 0, 0⟩
  | Except.ok _ => databaseGetLoop gets 0 3 ""

/-- C6: after a successful database-create POST, Create re-fetches the
record up to 3 times, sleeping 1 second before each retry attempt (none
before the first), and returns the first successful Get's record with no
error — in particular a first-fails/second-succeeds run returns the second
attempt's result — while three failures return the last Get error. -/
theorem database_create_retry (id : String)
    (gets : Nat → Except String Database) :
    (databaseServiceCreate (Except.ok id) gets).getAttempts ≤ 3 ∧
    (∀ d, gets 0 = Except.ok d →
      databaseServiceCreate (Except.ok id) gets = ⟨Except.ok d, 1, 0⟩) ∧
    (∀ e d, gets 0 = Except.error e → gets 1 = Except.ok d →
      databaseServiceCreate (Except.ok id) gets = ⟨Except.ok d, 2, 1⟩) ∧
    (∀ e0 e1 d, gets 0 = Except.error e0 → gets 1 = Except.error e1 →
      gets 2 = Except.ok d →
      databaseServiceCreate (Except.ok id) gets = ⟨Except.ok d, 3, 2⟩) ∧
    (∀ e0 e1 e2, gets 0 = Except.error e0 → gets 1 = Except.error e1 →
      gets 2 = Except.error e2 →
      databaseServiceCreate (Except.ok id) gets = ⟨Except.error e2, 3, 2⟩) := by
  refine ⟨?_, ?_, ?_, ?_, ?_⟩
  · show (databaseGetLoop gets 0 3 "").getAttempts ≤ 3
    cases h0 : gets 0 with
    | ok d => simp [databaseGetLoop, h0]
    | error e0 =>
      cases h1 : gets 1 with
      | ok d => simp [databaseGetLoop, h0, h1]
      | error e1 =>
        cases h2 : gets 2 with
        | ok d => simp [databaseGetLoop, h0, h1, h2]
        | error e2 => simp [databaseGetLoop, h0, h1, h2]
  · intro d h0
    simp [databaseServiceCreate, databaseGetLoop, h0]
  · intro e d h0 h1
    simp [databaseServiceCreate, databaseGetLoop, h0, h1]
  · intro e0 e1 d h0 h1 h2
    simp [databaseServiceCreate, databaseGetLoop, h0, h1, h2]
  · intro e0 e1 e2 h0 h1 h2
    simp [databaseServiceCreate, databaseGetLoop, h0, h1, h2]

/-- Witness for C6: first Get fails with "db not ready", second succeeds;
Create returns the second attempt's record, no error, one sleep. -/
theorem database_create_retry_witness :
    databaseServiceCreate (Except.ok "db_1")
      (fun i => if i = 0 then Except.error "db not ready"
                else Except.ok ⟨"db_1", "mydb", "ready"⟩) =
      ⟨Except.ok ⟨"db_1", "mydb", "ready"⟩, 2, 1⟩ :=
  (database_create_retry "db_1"
    (fun i => if i = 0 then Except.error "db not ready"
              else Except.ok ⟨"db_1", "mydb", "ready"⟩)).2.2.1
    "db not ready" ⟨"db_1", "mydb", "ready"⟩ rfl rfl

/-! ## Update request serialization — sevallaapi model types + encoding/json

The `Update*Request` structs carry pointer-typed optional fields, each tagged
`json:"<key>,omitempty"`.  `Client.makeRequest` serializes the request body
with `json.Marshal`; per Go's `encoding/json` semantics a nil pointer under
`omitempty` omits the key, a non-nil pointer emits the pointed-to value, and
a nil or empty slice under `omitempty` omits the key.  The `marshal…`
functions below embed exactly that serialization for each struct, producing
the JSON object's key/value list. -/

/-- A JSON value on the wire. -/
inductive Json where
  | null
  | str (s : String)
  | boolean (b : Bool)
  | num (n : Int)
  | obj (fields : List (String × Json))
  | arr (elems : List Json)

/-- Pointer field with `omitempty`: `none` (Go nil) contributes nothing,
`some a` contributes its encoded value under `k`. -/
def optEntry {α : Type} (k : String) (f : α → Json) : Option α → List (String × Json)
  | some a => [(k, f a)]
  | none => []

/-- Slice field with `omitempty`: a nil/empty slice contributes nothing. -/
def listEntry {α : Type} (k : String) (f : α → Json) : List α → List (String × Json)
  | [] => []
  | x :: xs => [(k, Json.arr ((x :: xs).map f))]

/-- Model of `EnvVar` (models.go): a key/value pair. -/
structure EnvVar where
  key : String
  value : String

def encodeEnvVar (v : EnvVar) : Json :=
  Json.obj [("key", Json.str v.key), ("value", Json.str v.value)]

/-- Model of `PackConfig` (models.go): carries the builder name. -/
structure PackConfig where
  builder : String

def encodePackConfig (p : PackConfig) : Json :=
  Json.obj [("builder", Json.str p.builder)]

/-- Model of `UpdateDatabaseRequest` (models.go lines 215-219); `BuildType` and
`NodeVersion` are Go named string types, rendered as `String`. -/
structure UpdateDatabaseRequest where
  displayName : Option String
  resourceType : Option String

/-- Model of `UpdateSiteRequest` (models.go). -/
structure UpdateSiteRequest where
  displayName : Option String

/-- Model of `UpdatePipelineRequest` (models.go). -/
structure UpdatePipelineRequest where
  displayName : Option String

/-- Model of `UpdateStaticSiteRequest` (models.go). -/
structure UpdateStaticSiteRequest where
  displayName : Option String
  autoDeploy : Option Bool
  defaultBranch : Option String
  buildCommand : Option String
  nodeVersion : Option String
  publishedDirectory : Option String

/-- Model of `UpdateObjectStorageRequest` (client.go line 352), serialized
by the object storage adapter's Update via `ObjectStorageService.Update`. -/
structure UpdateObjectStorageRequest where
  name : Option String

/-- Model of `UpdateApplicationRequest` (models.go lines 114-127). -/
structure UpdateApplicationRequest where
  displayName : Option String
  buildPath : Option String
  buildType : Option String
  defaultBranch : Option String
  autoDeploy : Option Bool
  nodeVersion : Option String
  dockerfilePath : Option String
  dockerComposeFile : Option String
  packConfig : Option PackConfig
  environmentVariables : List EnvVar
  startCommand : Option String
  installCommand : Option String

def marshalUpdateDatabaseRequest (r : UpdateDatabaseRequest) :
    List (String × Json) :=
  optEntry "display_name" Json.str r.displayName ++
  optEntry "resource_type" Json.str r.resourceType

def marshalUpdateSiteRequest (r : UpdateSiteRequest) : List (String × Json) :=
  optEntry "display_name" Json.str r.displayName

def marshalUpdatePipelineRequest (r : UpdatePipelineRequest) :
    List (String × Json) :=
  optEntry "display_name" Json.str r.displayName

def marshalUpdateStaticSiteRequest (r : UpdateStaticSiteRequest) :
    List (String × Json) :=
  optEntry "display_name" Json.str r.displayName ++
  optEntry "auto_deploy" Json.boolean r.autoDeploy ++
  optEntry "default_branch" Json.str r.defaultBranch ++
  optEntry "build_command" Json.str r.buildCommand ++
  optEntry "node_version" Json.str r.nodeVersion ++
  optEntry "published_directory" Json.str r.publishedDirectory

def marshalUpdateObjectStorageRequest (r : UpdateObjectStorageRequest) :
    List (String × Json) :=
  optEntry "name" Json.str r.name

def marshalUpdateApplicationRequest (r : UpdateApplicationRequest) :
    List (String × Json) :=
  optEntry "display_name" Json.str r.displayName ++
  optEntry "build_path" Json.str r.buildPath ++
  optEntry "build_type" Json.str r.buildType ++
  optEntry "default_branch" Json.str r.defaultBranch ++
  optEntry "auto_deploy" Json.boolean r.autoDeploy ++
  optEntry "node_version" Json.str r.nodeVersion ++
  optEntry "dockerfile_path" Json.str r.dockerfilePath ++
  optEntry "docker_compose_file" Json.str r.dockerComposeFile ++
  optEntry "pack_config" encodePackConfig r.packConfig ++
  listEntry "environment_variables" encodeEnvVar r.environmentVariables ++
  optEntry "start_command" Json.str r.startCommand ++
  optEntry "install_command" Json.str r.installCommand

theorem mem_optEntry {α : Type} {k : String} {f : α → Json} {o : Option α}
    {p : String × Json} :
    p ∈ optEntry k f o ↔ ∃ a, o = some a ∧ p = (k, f a) := by
  cases o <;> simp [optEntry]

theorem mem_listEntry {α : Type} {k : String} {f : α → Json} {l : List α}
    {p : String × Json} :
    p ∈ listEntry k f l ↔ l ≠ [] ∧ p = (k, Json.arr (l.map f)) := by
  cases l <;> simp [listEntry]

theorem marshalUpdateDatabaseRequest_spec (r : UpdateDatabaseRequest) :
    (∀ j, r.displayName = none →
      ("display_name", j) ∉ marshalUpdateDatabaseRequest r) ∧
    (∀ v, r.displayName = some v →
      ("display_name", Json.str v) ∈ marshalUpdateDatabaseRequest r) ∧
    (∀ j, r.resourceType = none →
      ("resource_type", j) ∉ marshalUpdateDatabaseRequest r) ∧
    (∀ v, r.resourceType = some v →
      ("resource_type", Json.str v) ∈ marshalUpdateDatabaseRequest r) ∧
    (∀ k, (k, Json.null) ∉ marshalUpdateDatabaseRequest r) := by
  refine ⟨?_, ?_, ?_, ?_, ?_⟩
  all_goals first
    | (intro x h
       simp [marshalUpdateDatabaseRequest, mem_optEntry, h])
    | (intro k
       simp [marshalUpdateDatabaseRequest, mem_optEntry])

theorem marshalUpdateSiteRequest_spec (r : UpdateSiteRequest) :
    (∀ j, r.displayName = none →
      ("display_name", j) ∉ marshalUpdateSiteRequest r) ∧
    (∀ v, r.displayName = some v →
      ("display_name", Json.str v) ∈ marshalUpdateSiteRequest r) ∧
    (∀ k, (k, Json.null) ∉ marshalUpdateSiteRequest r) := by
  refine ⟨?_, ?_, ?_⟩
  all_goals first
    | (intro x h
       simp [marshalUpdateSiteRequest, mem_optEntry, h])
    | (intro k
       simp [marshalUpdateSiteRequest, mem_optEntry])

theorem marshalUpdatePipelineRequest_spec (r : UpdatePipelineRequest) :
    (∀ j, r.displayName = none →
      ("display_name", j) ∉ marshalUpdatePipelineRequest r) ∧
    (∀ v, r.displayName = some v →
      ("display_name", Json.str v) ∈ marshalUpdatePipelineRequest r) ∧
    (∀ k, (k, Json.null) ∉ marshalUpdatePipelineRequest r) := by
  refine ⟨?_, ?_, ?_⟩
  all_goals first
    | (intro x h
       simp [marshalUpdatePipelineRequest, mem_optEntry, h])
    | (intro k
       simp [marshalUpdatePipelineRequest, mem_optEntry])

theorem marshalUpdateStaticSiteRequest_spec (r : UpdateStaticSiteRequest) :
    (∀ j, r.displayName = none →
      ("display_name", j) ∉ marshalUpdateStaticSiteRequest r) ∧
    (∀ v, r.displayName = some v →
      ("display_name", Json.str v) ∈ marshalUpdateStaticSiteRequest r) ∧
    (∀ j, r.autoDeploy = none →
      ("auto_deploy", j) ∉ marshalUpdateStaticSiteRequest r) ∧
    (∀ v, r.autoDeploy = some v →
      ("auto_deploy", Json.boolean v) ∈ marshalUpdateStaticSiteRequest r) ∧
    (∀ j, r.defaultBranch = none →
      ("default_branch", j) ∉ marshalUpdateStaticSiteRequest r) ∧
    (∀ v, r.defaultBranch = some v →
      ("default_branch", Json.str v) ∈ marshalUpdateStaticSiteRequest r) ∧
    (∀ j, r.buildCommand = none →
      ("build_command", j) ∉ marshalUpdateStaticSiteRequest r) ∧
    (∀ v, r.buildCommand = some v →
      ("build_command", Json.str v) ∈ marshalUpdateStaticSiteRequest r) ∧
    (∀ j, r.nodeVersion = none →
      ("node_version", j) ∉ marshalUpdateStaticSiteRequest r) ∧
    (∀ v, r.nodeVersion = some v →
      ("node_version", Json.str v) ∈ marshalUpdateStaticSiteRequest r) ∧
    (∀ j, r.publishedDirectory = none →
      ("published_directory", j) ∉ marshalUpdateStaticSiteRequest r) ∧
    (∀ v, r.publishedDirectory = some v →
      ("published_directory", Json.str v) ∈ marshalUpdateStaticSiteRequest r) ∧
    (∀ k, (k, Json.null) ∉ marshalUpdateStaticSiteRequest r) := by
  refine ⟨?_, ?_, ?_, ?_, ?_, ?_, ?_, ?_, ?_, ?_, ?_, ?_, ?_⟩
  all_goals first
    | (intro x h
       simp [marshalUpdateStaticSiteRequest, mem_optEntry, h])
    | (intro k
       simp [marshalUpdateStaticSiteRequest, mem_optEntry])

theorem marshalUpdateObjectStorageRequest_spec (r : UpdateObjectStorageRequest) :
    (∀ j, r.name = none →
      ("name", j) ∉ marshalUpdateObjectStorageRequest r) ∧
    (∀ v, r.name = some v →
      ("name", Json.str v) ∈ marshalUpdateObjectStorageRequest r) ∧
    (∀ k, (k, Json.null) ∉ marshalUpdateObjectStorageRequest r) := by
  refine ⟨?_, ?_, ?_⟩
  all_goals first
    | (intro x h
       simp [marshalUpdateObjectStorageRequest, mem_optEntry, h])
    | (intro k
       simp [marshalUpdateObjectStorageRequest, mem_optEntry])

theorem marshalUpdateApplicationRequest_spec (r : UpdateApplicationRequest) :
    (∀ j, r.displayName = none →
      ("display_name", j) ∉ marshalUpdateApplicationRequest r) ∧
    (∀ v, r.displayName = some v →
      ("display_name", Json.str v) ∈ marshalUpdateApplicationRequest r) ∧
    (∀ j, r.buildPath = none →
      ("build_path", j) ∉ marshalUpdateApplicationRequest r) ∧
    (∀ v, r.buildPath = some v →
      ("build_path", Json.str v) ∈ marshalUpdateApplicationRequest r) ∧
    (∀ j, r.buildType = none →
      ("build_type", j) ∉ marshalUpdateApplicationRequest r) ∧
    (∀ v, r.buildType = some v →
      ("build_type", Json.str v) ∈ marshalUpdateApplicationRequest r) ∧
    (∀ j, r.defaultBranch = none →
      ("default_branch", j) ∉ marshalUpdateApplicationRequest r) ∧
    (∀ v, r.defaultBranch = some v →
      ("default_branch", Json.str v) ∈ marshalUpdateApplicationRequest r) ∧
    (∀ j, r.autoDeploy = none →
      ("auto_deploy", j) ∉ marshalUpdateApplicationRequest r) ∧
    (∀ v, r.autoDeploy = some v →
      ("auto_deploy", Json.boolean v) ∈ marshalUpdateApplicationRequest r) ∧
    (∀ j, r.nodeVersion = none →
      ("node_version", j) ∉ marshalUpdateApplicationRequest r) ∧
    (∀ v, r.nodeVersion = some v →
      ("node_version", Json.str v) ∈ marshalUpdateApplicationRequest r) ∧
    (∀ j, r.dockerfilePath = none →
      ("dockerfile_path", j) ∉ marshalUpdateApplicationRequest r) ∧
    (∀ v, r.dockerfilePath = some v →
      ("dockerfile_path", Json.str v) ∈ marshalUpdateApplicationRequest r) ∧
    (∀ j, r.dockerComposeFile = none →
      ("docker_compose_file", j) ∉ marshalUpdateApplicationRequest r) ∧
    (∀ v, r.dockerComposeFile = some v →
      ("docker_compose_file", Json.str v) ∈ marshalUpdateApplicationRequest r) ∧
    (∀ j, r.packConfig = none →
      ("pack_config", j) ∉ marshalUpdateApplicationRequest r) ∧
    (∀ v, r.packConfig = some v →
      ("pack_config", encodePackConfig v) ∈ marshalUpdateApplicationRequest r) ∧
    (∀ j, r.startCommand = none →
      ("start_command", j) ∉ marshalUpdateApplicationRequest r) ∧
    (∀ v, r.startCommand = some v →
      ("start_command", Json.str v) ∈ marshalUpdateApplicationRequest r) ∧
    (∀ j, r.installCommand = none →
      ("install_command", j) ∉ marshalUpdateApplicationRequest r) ∧
    (∀ v, r.installCommand = some v →
      ("install_command", Json.str v) ∈ marshalUpdateApplicationRequest r) ∧
    (∀ k, (k, Json.null) ∉ marshalUpdateApplicationRequest r) := by
  refine ⟨?_, ?_, ?_, ?_, ?_, ?_, ?_, ?_, ?_, ?_, ?_, ?_, ?_, ?_, ?_, ?_, ?_,
    ?_, ?_, ?_, ?_, ?_, ?_⟩
  all_goals first
    | (intro x h
       simp [marshalUpdateApplicationRequest, mem_optEntry, mem_listEntry,
         encodePackConfig, h])
    | (intro k
       simp [marshalUpdateApplicationRequest, mem_optEntry, mem_listEntry,
         encodePackConfig])

/-- C7: for every Resource Service Update request object, any optional field
left as a nil pointer is entirely absent from the serialized JSON body (its
key is omitted, and nothing is ever emitted as null), while every field set
to a non-nil pointer is transmitted under its key. -/
theorem update_request_nil_fields_omitted :
    (∀ r : UpdateDatabaseRequest,
      (∀ j, r.displayName = none →
        ("display_name", j) ∉ marshalUpdateDatabaseRequest r) ∧
      (∀ v, r.displayName = some v →
        ("display_name", Json.str v) ∈ marshalUpdateDatabaseRequest r) ∧
      (∀ j, r.resourceType = none →
        ("resource_type", j) ∉ marshalUpdateDatabaseRequest r) ∧
      (∀ v, r.resourceType = some v →
        ("resource_type", Json.str v) ∈ marshalUpdateDatabaseRequest r) ∧
      (∀ k, (k, Json.null) ∉ marshalUpdateDatabaseRequest r)) ∧
    (∀ r : UpdateSiteRequest,
      (∀ j, r.displayName = none →
        ("display_name", j) ∉ marshalUpdateSiteRequest r) ∧
      (∀ v, r.displayName = some v →
        ("display_name", Json.str v) ∈ marshalUpdateSiteRequest r) ∧
      (∀ k, (k, Json.null) ∉ marshalUpdateSiteRequest r)) ∧
    (∀ r : UpdatePipelineRequest,
      (∀ j, r.displayName = none →
        ("display_name", j) ∉ marshalUpdatePipelineRequest r) ∧
      (∀ v, r.displayName = some v →
        ("display_name", Json.str v) ∈ marshalUpdatePipelineRequest r) ∧
      (∀ k, (k, Json.null) ∉ marshalUpdatePipelineRequest r)) ∧
    (∀ r : UpdateStaticSiteRequest,
      (∀ j, r.displayName = none →
        ("display_name", j) ∉ marshalUpdateStaticSiteRequest r) ∧
      (∀ v, r.displayName = some v →
        ("display_name", Json.str v) ∈ marshalUpdateStaticSiteRequest r) ∧
      (∀ j, r.autoDeploy = none →
        ("auto_deploy", j) ∉ marshalUpdateStaticSiteRequest r) ∧
      (∀ v, r.autoDeploy = some v →
        ("auto_deploy", Json.boolean v) ∈ marshalUpdateStaticSiteRequest r) ∧
      (∀ j, r.defaultBranch = none →
        ("default_branch", j) ∉ marshalUpdateStaticSiteRequest r) ∧
      (∀ v, r.defaultBranch = some v →
        ("default_branch", Json.str v) ∈ marshalUpdateStaticSiteRequest r) ∧
      (∀ j, r.buildCommand = none →
        ("build_command", j) ∉ marshalUpdateStaticSiteRequest r) ∧
      (∀ v, r.buildCommand = some v →
        ("build_command", Json.str v) ∈ marshalUpdateStaticSiteRequest r) ∧
      (∀ j, r.nodeVersion = none →
        ("node_version", j) ∉ marshalUpdateStaticSiteRequest r) ∧
      (∀ v, r.nodeVersion = some v →
        ("node_version", Json.str v) ∈ marshalUpdateStaticSiteRequest r) ∧
      (∀ j, r.publishedDirectory = none →
        ("published_directory", j) ∉ marshalUpdateStaticSiteRequest r) ∧
      (∀ v, r.publishedDirectory = some v →
        ("published_directory", Json.str v) ∈ marshalUpdateStaticSiteRequest r) ∧
      (∀ k, (k, Json.null) ∉ marshalUpdateStaticSiteRequest r)) ∧
    (∀ r : UpdateApplicationRequest,
      (∀ j, r.displayName = none →
        ("display_name", j) ∉ marshalUpdateApplicationRequest r) ∧
      (∀ v, r.displayName = some v →
        ("display_name", Json.str v) ∈ marshalUpdateApplicationRequest r) ∧
      (∀ j, r.buildPath = none →
        ("build_path", j) ∉ marshalUpdateApplicationRequest r) ∧
      (∀ v, r.buildPath = some v →
        ("build_path", Json.str v) ∈ marshalUpdateApplicationRequest r) ∧
      (∀ j, r.buildType = none →
        ("build_type", j) ∉ marshalUpdateApplicationRequest r) ∧
      (∀ v, r.buildType = some v →
        ("build_type", Json.str v) ∈ marshalUpdateApplicationRequest r) ∧
      (∀ j, r.defaultBranch = none →
        ("default_branch", j) ∉ marshalUpdateApplicationRequest r) ∧
      (∀ v, r.defaultBranch = some v →
        ("default_branch", Json.str v) ∈ marshalUpdateApplicationRequest r) ∧
      (∀ j, r.autoDeploy = none →
        ("auto_deploy", j) ∉ marshalUpdateApplicationRequest r) ∧
      (∀ v, r.autoDeploy = some v →
        ("auto_deploy", Json.boolean v) ∈ marshalUpdateApplicationRequest r) ∧
      (∀ j, r.nodeVersion = none →
        ("node_version", j) ∉ marshalUpdateApplicationRequest r) ∧
      (∀ v, r.nodeVersion = some v →
        ("node_version", Json.str v) ∈ marshalUpdateApplicationRequest r) ∧
      (∀ j, r.dockerfilePath = none →
        ("dockerfile_path", j) ∉ marshalUpdateApplicationRequest r) ∧
      (∀ v, r.dockerfilePath = some v →
        ("dockerfile_path", Json.str v) ∈ marshalUpdateApplicationRequest r) ∧
      (∀ j, r.dockerComposeFile = none →
        ("docker_compose_file", j) ∉ marshalUpdateApplicationRequest r) ∧
      (∀ v, r.dockerComposeFile = some v →
        ("docker_compose_file", Json.str v) ∈ marshalUpdateApplicationRequest r) ∧
      (∀ j, r.packConfig = none →
        ("pack_config", j) ∉ marshalUpdateApplicationRequest r) ∧
      (∀ v, r.packConfig = some v →
        ("pack_config", encodePackConfig v) ∈ marshalUpdateApplicationRequest r) ∧
      (∀ j, r.startCommand = none →
        ("start_command", j) ∉ marshalUpdateApplicationRequest r) ∧
      (∀ v, r.startCommand = some v →
        ("start_command", Json.str v) ∈ marshalUpdateApplicationRequest r) ∧
      (∀ j, r.installCommand = none →
        ("install_command", j) ∉ marshalUpdateApplicationRequest r) ∧
      (∀ v, r.installCommand = some v →
        ("install_command", Json.str v) ∈ marshalUpdateApplicationRequest r) ∧
      (∀ k, (k, Json.null) ∉ marshalUpdateApplicationRequest r)) ∧
    (∀ r : UpdateObjectStorageRequest,
      (∀ j, r.name = none →
        ("name", j) ∉ marshalUpdateObjectStorageRequest r) ∧
      (∀ v, r.name = some v →
        ("name", Json.str v) ∈ marshalUpdateObjectStorageRequest r) ∧
      (∀ k, (k, Json.null) ∉ marshalUpdateObjectStorageRequest r)) :=
  ⟨marshalUpdateDatabaseRequest_spec, marshalUpdateSiteRequest_spec,
    marshalUpdatePipelineRequest_spec, marshalUpdateStaticSiteRequest_spec,
    marshalUpdateApplicationRequest_spec, marshalUpdateObjectStorageRequest_spec⟩

/-- Witness for C7: an `UpdateDatabaseRequest` with `display_name` set and
`resource_type` nil serializes the former and omits the latter entirely. -/
theorem update_request_nil_fields_omitted_witness :
    ("display_name", Json.str "new name") ∈
      marshalUpdateDatabaseRequest ⟨some "new name", none⟩ ∧
    (∀ j, ("resource_type", j) ∉
      marshalUpdateDatabaseRequest ⟨some "new name", none⟩) :=
  ⟨(update_request_nil_fields_omitted.1 ⟨some "new name", none⟩).2.1
      "new name" rfl,
   fun j => (update_request_nil_fields_omitted.1 ⟨some "new name", none⟩).2.2.1
      j rfl⟩

/-! ## Provider Configure — internal/provider/provider.go -/

def DefaultBaseURL : String := "https://api.sevalla.com/v2"

/-- Model of `sevallaapi.Config` (client.go). -/
structure Config where
  baseURL : String
  token : String
  timeoutSeconds : Nat

/-- The configuration-bearing part of `sevallaapi.Client` (client.go); the
HTTP pool and the per-entity service pointers all share this one value. -/
structure Client where
  baseURL : String
  token : String
  timeoutSeconds : Nat
deriving Repr, DecidableEq

/-- Embedding of `sevallaapi.NewClient` (client.go lines 43-70): zero-valued fields fall
back to `DefaultBaseURL` and the 30-second default timeout. -/
def NewClient (config : Config) : Client :=
  { baseURL := if config.baseURL = "" then DefaultBaseURL else config.baseURL
  , token := config.token
  , timeoutSeconds :=
      if config.timeoutSeconds = 0 then 30 else config.timeoutSeconds }

/-- Model of `SevallaProviderData` (provider.go): the value handed to every resource
and data-source adapter. -/
structure SevallaProviderData where
  client : Client
deriving Repr, DecidableEq

/-- Outcome of `SevallaProvider.Configure`: the `resp.DataSourceData` and
`resp.ResourceData` assignments (`none` when Configure bails out before
constructing a client) and the diagnostics' error titles. -/
structure ConfigureResponse where
  dataSourceData : Option SevallaProviderData
  resourceData : Option SevallaProviderData
  errors : List String
deriving Repr, DecidableEq

/-- Embedding of `SevallaProvider.Configure` (provider.go): `configToken`/`configBaseURL`
are the plan's `token`/`base_url` attributes (`none` = Terraform null),
`envToken` the value of the `SEVALLA_TOKEN` environment variable (`""` when
unset, as `os.Getenv` returns).  Defaults are taken first, then overridden
by non-null configuration; an empty resolved token is the fatal
"Unable to find token" configuration error and no client is built. -/
def providerConfigure (configToken configBaseURL : Option String)
    (envToken : String) : ConfigureResponse :=
  let token :=
    match configToken with
    | some t => t
    | none => envToken
  let baseURL :=
    match configBaseURL with
    | some b => b
    | none => DefaultBaseURL
  if token = "" then
    { dataSourceData := none, resourceData := none
    , errors := ["Unable to find token"] }
  else
    let client := NewClient { baseURL := baseURL, token := token, timeoutSeconds := 0 }
    { dataSourceData := some ⟨client⟩, resourceData := some ⟨client⟩
    , errors := [] }

/-- The credential Configure resolves: explicit configuration first, the
`SEVALLA_TOKEN` environment variable second. -/
def resolvedToken (configToken : Option String) (envToken : String) : String :=
  match configToken with
  | some t => t
  | none => envToken

/-- C8: Configure resolves the credential from explicit configuration first
and the environment second (a configured token, even an empty one, wins
over the environment; the environment is used only when the configuration
is null); exactly when the resolved credential is empty it reports the
fatal configuration error and constructs no client; otherwise it
constructs one client, with the resolved token, and that same single value
is supplied as both the resource and the data-source provider data. -/
theorem provider_configure_spec (ct cb : Option String) (et : String) :
    (∀ t, ct = some t → resolvedToken ct et = t) ∧
    (ct = none → resolvedToken ct et = et) ∧
    (resolvedToken ct et = "" →
      providerConfigure ct cb et =
        ⟨none, none, ["Unable to find token"]⟩) ∧
    (resolvedToken ct et ≠ "" →
      ∃ cl : Client,
        providerConfigure ct cb et = ⟨some ⟨cl⟩, some ⟨cl⟩, []⟩ ∧
        cl.token = resolvedToken ct et ∧
        (providerConfigure ct cb et).dataSourceData =
          (providerConfigure ct cb et).resourceData) := by
  refine ⟨?_, ?_, ?_, ?_⟩
  · intro t h
    simp [resolvedToken, h]
  · intro h
    simp [resolvedToken, h]
  · intro h
    simp only [resolvedToken] at h
    simp [providerConfigure, h]
  · intro h
    simp only [resolvedToken] at h
    rcases ct with _ | t <;> rcases cb with _ | b
    · exact ⟨NewClient ⟨DefaultBaseURL, et, 0⟩,
        by simp [providerConfigure, h], rfl, by simp [providerConfigure, h]⟩
    · exact ⟨NewClient ⟨b, et, 0⟩,
        by simp [providerConfigure, h], rfl, by simp [providerConfigure, h]⟩
    · exact ⟨NewClient ⟨DefaultBaseURL, t, 0⟩,
        by simp [providerConfigure, h], rfl, by simp [providerConfigure, h]⟩
    · exact ⟨NewClient ⟨b, t, 0⟩,
        by simp [providerConfigure, h], rfl, by simp [providerConfigure, h]⟩

/-- Witness for C8: explicit token "tkn" with env "envtok" resolves to
"tkn" and produces the shared client. -/
theorem provider_configure_spec_witness :
    resolvedToken (some "tkn") "envtok" = "tkn" ∧
    providerConfigure (some "tkn") none "envtok" =
      ⟨some ⟨⟨DefaultBaseURL, "tkn", 30⟩⟩, some ⟨⟨DefaultBaseURL, "tkn", 30⟩⟩, []⟩ := by
  refine ⟨(provider_configure_spec (some "tkn") none "envtok").1 "tkn" rfl, ?_⟩
  obtain ⟨cl, hcl, htok, -⟩ :=
    (provider_configure_spec (some "tkn") none "envtok").2.2.2 (by decide)
  rw [hcl]
  have : cl = ⟨DefaultBaseURL, "tkn", 30⟩ := by
    have h1 : providerConfigure (some "tkn") none "envtok" =
        ⟨some ⟨⟨DefaultBaseURL, "tkn", 30⟩⟩, some ⟨⟨DefaultBaseURL, "tkn", 30⟩⟩, []⟩ := rfl
    rw [h1] at hcl
    injection hcl with h2 h3 h4
    injection h2 with h5
    injection h5 with h6
    exact h6.symm
  rw [this]

end Sevalla
